import Mathlib

/-!
Verification of the tezland metadata-processing pipeline.

Shallow embedding of the repository's Python source:
* `utils.py` — `toGrid`, `getGridCellHash`, `getOrRaise`;
* `gltf_validation.py` — `count_gltf_polygons` and its node traversal;
* `worker.py` — the item/contract pipelines (required-field validation,
  polygon tolerance check, transaction error dispatch) and
  `ipfs_download_retry` / `ipfs_download_fallback`;
* `cursor.py` — the watermark cursor over the entity store.

JSON manifests decoded by `orjson` are modelled by the inductive `Json`;
a decoded JSON object is a Python `dict`, so `null` values and absent keys
are both surfaced as `None` by `dict.get`.  Python floats are modelled as
rationals, machine integers as `Int`/`Nat`.
-/

/-- The `metadata_status` values (from the entity data model: `New`, `Valid`,
`Invalid`, `Failed`). -/
inductive MetadataStatus where
  | New
  | Valid
  | Invalid
  | Failed
deriving DecidableEq, Repr

/-- Decoded JSON values as produced by `orjson.loads`: numbers carry either an
integer or are not needed in integral form by any modelled code path, so we
keep integers (`num`) separate from other scalars. -/
inductive Json where
  | null
  | bool (b : Bool)
  | num (n : Int)
  | str (s : String)
  | arr (elems : List Json)
  | obj (fields : List (String × Json))
deriving Repr

mutual

/-- Structural equality on decoded JSON values (Python `==` on the decoded
`dict`/`list`/scalar structure). -/
def Json.beq : Json → Json → Bool
  | .null, .null => true
  | .bool a, .bool b => a == b
  | .num a, .num b => a == b
  | .str a, .str b => a == b
  | .arr xs, .arr ys => Json.beqList xs ys
  | .obj xs, .obj ys => Json.beqObj xs ys
  | _, _ => false

def Json.beqList : List Json → List Json → Bool
  | [], [] => true
  | x :: xs, y :: ys => Json.beq x y && Json.beqList xs ys
  | _, _ => false

def Json.beqObj : List (String × Json) → List (String × Json) → Bool
  | [], [] => true
  | (k1, v1) :: xs, (k2, v2) :: ys => k1 == k2 && Json.beq v1 v2 && Json.beqObj xs ys
  | _, _ => false

end

instance : BEq Json := ⟨Json.beq⟩

/-- Python `dict.get(key)` on a decoded JSON object: returns `None` both when
the key is absent and when the stored value is JSON `null` (which decodes to
Python `None`). -/
def pyGet (m : List (String × Json)) (key : String) : Option Json :=
  match m.lookup key with
  | none => none
  | some Json.null => none
  | some v => some v

/-- Model of `utils.getOrRaise`: `res = metadata.get(key); if res is None: raise`. -/
def getOrRaise (m : List (String × Json)) (key : String) : Except String Json :=
  match pyGet m key with
  | none => Except.error ("Key " ++ key ++ " not in metadata")
  | some v => Except.ok v

/-! ## SHA-1 (model of `hashlib.sha1`, used by `utils.getGridCellHash`) -/

/-- Rotate a 32-bit word left by `n` bits. -/
def rotl32 (n x : Nat) : Nat :=
  ((x <<< n) % 2 ^ 32) ||| (x % 2 ^ 32) / 2 ^ (32 - n)

/-- The SHA-1 round function. -/
def sha1F (t b c d : Nat) : Nat :=
  if t < 20 then (b &&& c) ||| ((b ^^^ (2 ^ 32 - 1)) &&& d)
  else if t < 40 then b ^^^ c ^^^ d
  else if t < 60 then (b &&& c) ||| (b &&& d) ||| (c &&& d)
  else b ^^^ c ^^^ d

/-- The SHA-1 round constants. -/
def sha1K (t : Nat) : Nat :=
  if t < 20 then 0x5A827999
  else if t < 40 then 0x6ED9EBA1
  else if t < 60 then 0x8F1BBCDC
  else 0xCA62C1D6

/-- Big-endian bytes of `n`, `k` bytes wide. -/
def beBytes : Nat → Nat → List Nat
  | 0, _ => []
  | k + 1, n => beBytes k (n / 256) ++ [n % 256]

/-- A big-endian 32-bit word from a list of bytes. -/
def beWord (bs : List Nat) : Nat :=
  bs.foldl (fun acc b => acc * 256 + b) 0

/-- SHA-1 message padding: append `0x80`, zero bytes to 56 mod 64, and the
64-bit big-endian bit length. -/
def sha1Pad (msg : List Nat) : List Nat :=
  let L := msg.length
  let zeros := (120 - ((L + 1) % 64)) % 64
  msg ++ 0x80 :: List.replicate zeros 0 ++ beBytes 8 (8 * L)

/-- The five 32-bit words of SHA-1 internal state. -/
structure SHA1H where
  h0 : Nat
  h1 : Nat
  h2 : Nat
  h3 : Nat
  h4 : Nat

/-- Extend the 16 message words of a chunk to the 80 round words. -/
def sha1Extend (w : Array Nat) : Array Nat :=
  (List.range 64).foldl (fun w i =>
    let t := i + 16
    w.push (rotl32 1 ((w[t - 3]! ^^^ w[t - 8]!) ^^^ (w[t - 14]! ^^^ w[t - 16]!)))) w

/-- Process one 64-byte chunk. -/
def sha1Chunk (h : SHA1H) (chunk : List Nat) : SHA1H :=
  let w := sha1Extend ((List.toChunks 4 chunk).map beWord).toArray
  let s := (List.range 80).foldl (fun (s : Nat × Nat × Nat × Nat × Nat) t =>
    let (a, b, c, d, e) := s
    let temp := (rotl32 5 a + sha1F t b c d + e + sha1K t + w[t]!) % 2 ^ 32
    (temp, a, rotl32 30 b, c, d)) (h.h0, h.h1, h.h2, h.h3, h.h4)
  let (a, b, c, d, e) := s
  ⟨(h.h0 + a) % 2 ^ 32, (h.h1 + b) % 2 ^ 32, (h.h2 + c) % 2 ^ 32,
    (h.h3 + d) % 2 ^ 32, (h.h4 + e) % 2 ^ 32⟩

/-- SHA-1 digest (20 bytes) of a byte string. -/
def sha1Bytes (msg : List Nat) : List Nat :=
  let chunks := List.toChunks 64 (sha1Pad msg)
  let h := chunks.foldl sha1Chunk
    ⟨0x67452301, 0xEFCDAB89, 0x98BADCFE, 0x10325476, 0xC3D2E1F0⟩
  beBytes 4 h.h0 ++ beBytes 4 h.h1 ++ beBytes 4 h.h2 ++ beBytes 4 h.h3 ++ beBytes 4 h.h4

/-- Lower-case hex digit. -/
def hexChar (n : Nat) : Char :=
  if n < 10 then Char.ofNat (48 + n) else Char.ofNat (87 + n)

/-- Lower-case hex string of a byte list (Python `bytes.hex()`). -/
def bytesToHex (bs : List Nat) : String :=
  String.mk ((bs.map (fun b => [hexChar (b / 16), hexChar (b % 16)])).flatten)

/-- UTF-8 encoding of one code point. -/
def utf8EncodeNat (c : Nat) : List Nat :=
  if c < 0x80 then [c]
  else if c < 0x800 then [0xC0 + c / 64, 0x80 + c % 64]
  else if c < 0x10000 then [0xE0 + c / 4096, 0x80 + (c / 64) % 64, 0x80 + c % 64]
  else [0xF0 + c / 262144, 0x80 + (c / 4096) % 64, 0x80 + (c / 64) % 64, 0x80 + c % 64]

/-- UTF-8 bytes of a string (Python `str.encode`). -/
def strUtf8 (s : String) : List Nat :=
  (s.data.map (fun ch => utf8EncodeNat ch.toNat)).flatten

/-- SHA-1 hex digest of a string's UTF-8 bytes
(`hashlib.sha1(str.encode(s)).digest().hex()`). -/
def sha1Hex (s : String) : String :=
  bytesToHex (sha1Bytes (strUtf8 s))

/-! ## `utils.py`: grid cell hash -/

/-- Truncation toward zero of a rational (Python `math.trunc`). -/
def ratTrunc (q : ℚ) : Int :=
  q.num.tdiv (q.den : Int)

/-- Model of `utils.toGrid`: `int(math.trunc(coordinate / gridSize)) + sign` with
`sign = -1` for negative input, else `+1`. -/
def toGrid (coordinate gridSize : ℚ) : Int :=
  let sign : Int := if coordinate < 0 then -1 else 1
  ratTrunc (coordinate / gridSize) + sign

/-- The string hashed by `getGridCellHash`: the three cell coordinates
interpolated as `"{cx}-{cy}-{cz}"`. -/
def gridCellString (cx cy cz : Int) : String :=
  toString cx ++ "-" ++ toString cy ++ "-" ++ toString cz

/-- Model of `utils.getGridCellHash`. -/
def getGridCellHash (x y z gridSize : ℚ) : String :=
  sha1Hex (gridCellString (toGrid x gridSize) (toGrid y gridSize) (toGrid z gridSize))

set_option maxRecDepth 10000 in
/-- Sanity check of the SHA-1 model against the standard test vector. -/
theorem sha1Hex_test_vector :
    sha1Hex "abc" = "a9993e364706816aba3e25717850c26c9cd0d89d" := by rfl

/-! ## `gltf_validation.py`: polygon counting -/

/-- A decoded GLTF accessor (only the `count` field is used). -/
structure Accessor where
  count : Nat
deriving Repr

/-- A decoded GLTF mesh primitive: an optional index-accessor reference and a
draw `mode` (`none` models a non-integer `mode` value; `pygltflib` defaults
`mode` to `TRIANGLES = 4`). -/
structure Primitive where
  indices : Option Nat
  mode : Option Int
deriving Repr

/-- A decoded GLTF mesh. -/
structure Mesh where
  primitives : List Primitive
deriving Repr

/-- A decoded GLTF node: an optional mesh reference and child node indices. -/
structure Node where
  mesh : Option Nat
  children : List Nat
deriving Repr

/-- A decoded GLTF scene: its root node indices. -/
structure Scene where
  nodes : List Nat
deriving Repr

/-- A decoded GLTF document. -/
structure GLTF2 where
  scene : Option Nat
  scenes : List Scene
  nodes : List Node
  meshes : List Mesh
  accessors : List Accessor
deriving Repr

/-- GLTF draw-mode constants (from `pygltflib`). -/
def TRIANGLES : Int := 4

def TRIANGLE_STRIP : Int := 5

def TRIANGLE_FAN : Int := 6

/-- Contribution of one primitive inside `traverseNodesCountPolygons`.

The Python source matches on `prim.mode` with
`case int(TRIANGLES): polyCount += int(doc.accessors[prim.indices].count / 3)`
as its first case.  Under PEP 634, `int(TRIANGLES)` is a class pattern whose
positional sub-pattern `TRIANGLES` is a *capture* pattern (it rebinds the
name `TRIANGLES`), and `int` is a self-matching builtin, so this first case
matches **every** integer draw mode; the `TRIANGLE_STRIP`/`TRIANGLE_FAN`
cases are unreachable (they would also fail on the nonexistent attribute
`doc.Accessors`).  A non-integer mode falls through to `case _: continue`.
`none` models a Python `IndexError` from `doc.accessors[prim.indices]`. -/
def primitivePolygons (doc : GLTF2) (prim : Primitive) : Option Nat :=
  match prim.indices with
  | none => some 0
  | some idx =>
    match prim.mode with
    | none => some 0
    | some _anyIntMode =>
      match doc.accessors.get? idx with
      | none => none
      | some acc => some (acc.count / 3)

/-- Model of `traverseNodesCountPolygons`: recursive polygon count of a node, its mesh
primitives and its children.  The Python recursion has no cycle guard, so the
embedding is fuelled; `none` models nontermination or an `IndexError`. -/
def traverseNodesCountPolygons (doc : GLTF2) : Nat → Node → Option Nat
  | 0, _ => none
  | fuel + 1, node => do
    let meshCount ← match node.mesh with
      | none => some 0
      | some mi => do
        let mesh ← doc.meshes.get? mi
        let prims ← mesh.primitives.mapM (primitivePolygons doc)
        pure prims.sum
    let childCounts ← node.children.mapM (fun c => do
      let child ← doc.nodes.get? c
      traverseNodesCountPolygons doc fuel child)
    pure (meshCount + childCounts.sum)

/-- Model of `count_gltf_polygons`: select the active scene (explicit `scene` index,
else scene 0) and sum the traversal over its root nodes. -/
def count_gltf_polygons (doc : GLTF2) (fuel : Nat) : Option Nat := do
  let scene ← match doc.scene with
    | some s => doc.scenes.get? s
    | none => doc.scenes.get? 0
  let counts ← scene.nodes.mapM (fun n => do
    let node ← doc.nodes.get? n
    traverseNodesCountPolygons doc fuel node)
  pure counts.sum

/-! ## `worker.py`: resilient download (`ipfs_download_fallback`,
`ipfs_download_retry`)

One *attempt group* is modelled by the outcomes of its two network calls
(random primary gateway, then the fixed fallback gateway); `none` means the
call raised.  `ipfs_download_retry` is driven by an oracle giving the outcome
of each attempt group, numbered from 1 as in the source (`attempt = 1`). -/

/-- Model of `ipfs_download_fallback`: try the primary gateway; on any failure try the
fallback gateway; fail only if both fail. -/
def ipfs_download_fallback {α : Type} (primary fallback : Option α) : Option α :=
  match primary with
  | some v => some v
  | none => fallback

/-- The message of the exception raised when retries are exhausted:
`f'IPFS download failed after {attempt} retries.'`. -/
def downloadFailedMsg (attempt : Nat) : String :=
  "IPFS download failed after " ++ toString attempt ++ " retries."

/-- Observable outcome of `ipfs_download_retry`: the returned value or raised
error, the number of attempt groups performed, and the backoff sleeps
executed (in order). -/
structure RetryTrace (α : Type) where
  result : Except String α
  attempts : Nat
  sleeps : List ℚ
deriving Repr

/-- The `while True` loop of `ipfs_download_retry`: try the current attempt
group; on failure break (and raise) once `attempt >= download_retries`, which
is `remaining = 0` here, else sleep `sleep_time`, multiply it by the backoff
factor `1.5` and go again. -/
def retryLoop {α : Type} (groups : Nat → Option α) :
    Nat → Nat → ℚ → RetryTrace α
  | 0, attempt, _sleepTime =>
    match groups attempt with
    | some v => ⟨Except.ok v, attempt, []⟩
    | none => ⟨Except.error (downloadFailedMsg attempt), attempt, []⟩
  | rem + 1, attempt, sleepTime =>
    match groups attempt with
    | some v => ⟨Except.ok v, attempt, []⟩
    | none =>
      let t := retryLoop groups rem (attempt + 1) (sleepTime * (3 / 2))
      ⟨t.result, t.attempts, sleepTime :: t.sleeps⟩

/-- Model of `ipfs_download_retry`: `attempt = 1`, `sleep_time = 10`,
`backoff_factor = 1.5`, up to `download_retries` attempt groups. -/
def ipfs_download_retry {α : Type} (groups : Nat → Option α)
    (download_retries : Nat) : RetryTrace α :=
  retryLoop groups (download_retries - 1) 1 10

/-- The backoff delay sequence `10, 15, 22.5, …` (`n` terms, each `1.5` times
the previous). -/
def backoffSeq (n : Nat) : List ℚ :=
  (List.range n).map (fun i => 10 * (3 / 2) ^ i)

/-! ## `worker.py`: entity pipelines

The pipelines are modelled from the point where the manifest has been
downloaded and decoded (a JSON object, i.e. a Python `dict`).  Store writes
inside `tortoise.transactions.in_transaction()` either commit, raise a
`TransactionManagementError` (rolling back every write of the block), or
raise some other exception; this is abstracted by `TxnOutcome`.  Each
pipeline returns the entity's persisted `metadata_status` after the call
together with a flag telling whether the call re-raised an exception. -/

/-- Outcome of the final persistence transaction. -/
inductive TxnOutcome where
  | committed
  | txnError
  | otherError
deriving DecidableEq, Repr

/-- The list `GLTF_MIME_TYPES` from `worker.py`. -/
def GLTF_MIME_TYPES : List String := ["model/gltf-binary", "model/gltf+json"]

/-- The list `IMAGE_MIME_TYPES` from `worker.py`. -/
def IMAGE_MIME_TYPES : List String := ["image/png", "image/jpeg"]

/-- The list `ALLOWED_MIME_TYPES = GLTF_MIME_TYPES + IMAGE_MIME_TYPES`. -/
def ALLOWED_MIME_TYPES : List String := GLTF_MIME_TYPES ++ IMAGE_MIME_TYPES

/-- Python `value in list_of_strings` for a decoded JSON value: only a string
can equal a string. -/
def jsonMemStr (v : Json) (l : List String) : Bool :=
  match v with
  | .str s => l.contains s
  | _ => false

/-- Read a decoded `tags` value as a list of Python strings; anything else
raises at `tag.split(',')` (`AttributeError`) or at the `for` loop
(`TypeError`). -/
def readTagStrings (v : Json) : Except String (List String) :=
  match v with
  | .arr elems => elems.mapM (fun e =>
      match e with
      | .str s => Except.ok s
      | _ => Except.error "AttributeError: split")
  | _ => Except.error "TypeError: tags is not a list"

/-- Python `str.split(',')` on the character list of a string: splits at
every comma, keeping empty pieces. -/
def splitOnComma : List Char → List (List Char)
  | [] => [[]]
  | c :: rest =>
    if c = ',' then [] :: splitOnComma rest
    else
      match splitOnComma rest with
      | s :: ss => (c :: s) :: ss
      | [] => [[c]]

/-- Python `str.strip()`: drop leading and trailing whitespace. -/
def pyStrip (s : List Char) : List Char :=
  ((s.dropWhile Char.isWhitespace).reverse.dropWhile Char.isWhitespace).reverse

/-- Python `str.lower()` (on the characters the manifests use). -/
def pyLower (s : List Char) : List Char :=
  s.map Char.toLower

/-- Tag normalization shared by the item and contract pipelines: split each
entry on commas, strip whitespace, drop empty pieces, lower-case the rest. -/
def normalizeTags (tags : List String) : List String :=
  (tags.map (fun tag =>
    (splitOnComma tag.data).filterMap (fun piece =>
      let stripped := pyStrip piece
      if stripped.length > 0 then some (String.mk (pyLower stripped)) else none))).flatten

/-- The fields the item required-field phase binds when it succeeds. -/
structure ItemFields where
  polygonCount : Json
  baseScale : Json
  artifactUri : Json
  mimeType : Json
  fileSize : Json
  width : Option Int
  height : Option Int
  imageFrame : Option Json
  tags : List String
deriving Repr

/-- The `for format in formats` loop of `process_item_token`: find the first
format whose `uri` equals `artifactUri` and read `mimeType`, `fileSize` and
the optional `dimensions` from it; `ok none` models the loop completing with
`found_format == False`.

When a `dimensions` entry is present the source evaluates `dimensions.unit`;
the decoded JSON object is a Python `dict`, which has no attribute `unit`,
so this raises an `AttributeError` before `width`/`height` are ever
assigned (the intended parse of `"<w>x<h>"` is unreachable). -/
def findArtifactFormat (artifactUri : Json) :
    List Json → Except String (Option (Json × Json × Option Int × Option Int))
  | [] => Except.ok none
  | f :: rest =>
    match f with
    | .obj fields =>
      match getOrRaise fields "uri" with
      | .error e => .error e
      | .ok uri =>
        if uri == artifactUri then
          match getOrRaise fields "mimeType" with
          | .error e => .error e
          | .ok mimeType =>
            match getOrRaise fields "fileSize" with
            | .error e => .error e
            | .ok fileSize =>
              match pyGet fields "dimensions" with
              | some _ => .error "AttributeError: dict has no attribute unit"
              | none => .ok (some (mimeType, fileSize, none, none))
        else findArtifactFormat artifactUri rest
    | _ => .error "AttributeError: format has no attribute get"

/-- The required-field phase of `process_item_token` (the inner `try` block);
any raise here sends the entity to `Invalid`. -/
def itemRequiredFields (metadata : List (String × Json)) :
    Except String ItemFields := do
  let polygonCount ← getOrRaise metadata "polygonCount"
  let baseScale ← getOrRaise metadata "baseScale"
  let artifactUri ← getOrRaise metadata "artifactUri"
  let formats ← getOrRaise metadata "formats"
  let formatsList ← match formats with
    | .arr fs => Except.ok fs
    | _ => Except.error "TypeError: formats is not a list"
  let found ← findArtifactFormat artifactUri formatsList
  let (mimeType, fileSize, width, height) ← match found with
    | some r => Except.ok r
    | none => Except.error "Formats didn't include artifact"
  if jsonMemStr mimeType ALLOWED_MIME_TYPES then pure () else
    Except.error "Unsupported mime type"
  let imageFrame ← if jsonMemStr mimeType IMAGE_MIME_TYPES then
      match width with
      | none => Except.error "width is None for image"
      | some _ =>
        match height with
        | none => Except.error "height is None for image"
        | some _ => do
          let frame ← getOrRaise metadata "imageFrame"
          pure (some frame)
    else pure none
  let metadataTags ← getOrRaise metadata "tags"
  let tagStrings ← readTagStrings metadataTags
  pure ⟨polygonCount, baseScale, artifactUri, mimeType, fileSize, width,
    height, imageFrame, normalizeTags tagStrings⟩

/-- The artifact validation phase of `process_item_token` (the second inner
`try` block): byte-length check then the polygon-tolerance check
`diff = max(0, counted - declared)`,
`maxDiff = declared * polygon_count_error / 10000.00`, invalid iff
`diff > maxDiff`.  `polygon_count_error` is the configured tolerance in basis
points; `counted` is the Geometry Validator's result (0 for non-GLTF mime
types). -/
def artifactChecks (polygon_count_error : ℚ) (polygonCount fileSize mimeType : Json)
    (artifactSize : Int) (counted : Nat) : Except String Unit := do
  let declaredSize ← match fileSize with
    | .num n => Except.ok n
    | _ => Except.error "file size does not match metadata"
  if artifactSize = declaredSize then pure () else
    Except.error "file size does not match metadata"
  let countedPolygons : Int := if jsonMemStr mimeType GLTF_MIME_TYPES then counted else 0
  let declared ← match polygonCount with
    | .num n => Except.ok n
    | _ => Except.error "TypeError: unsupported operand"
  let diff : Int := max 0 (countedPolygons - declared)
  let maxDiff : ℚ := (declared : ℚ) * polygon_count_error / 10000
  if (diff : ℚ) > maxDiff then Except.error "polycount > max diff" else pure ()

/-- Model of `process_item_token` from the point where the manifest is available, for
an entity whose stored status is `status₀` (the cursor only surfaces `New`
entities) and with no pre-existing derived metadata.  `artifactSize` and
`counted` describe the downloaded artifact; `txn` is the behavior of the
final persistence transaction.  Returns the persisted `metadata_status` and
whether the call re-raised. -/
def process_item_token (polygon_count_error : ℚ) (metadata : List (String × Json))
    (artifactSize : Int) (counted : Nat) (txn : TxnOutcome)
    (status₀ : MetadataStatus) : MetadataStatus × Bool :=
  match itemRequiredFields metadata with
  | .error _ => (MetadataStatus.Invalid, false)
  | .ok fields =>
    match artifactChecks polygon_count_error fields.polygonCount fields.fileSize
        fields.mimeType artifactSize counted with
    | .error _ => (MetadataStatus.Invalid, false)
    | .ok _ =>
      match txn with
      | .committed => (MetadataStatus.Valid, false)
      | .txnError => (status₀, true)
      | .otherError => (MetadataStatus.Failed, false)

/-- The required-field phase of `process_place_token` (`placeType`,
`borderCoordinates`, `centerCoordinates`, `buildHeight`, then the grid hash
of `center_coordinates[0..2]`, which needs a list of at least three
numbers). -/
def placeRequiredFields (grid_size : ℚ) (metadata : List (String × Json)) :
    Except String String := do
  let _placeType ← getOrRaise metadata "placeType"
  let _borderCoordinates ← getOrRaise metadata "borderCoordinates"
  let centerCoordinates ← getOrRaise metadata "centerCoordinates"
  let _buildHeight ← getOrRaise metadata "buildHeight"
  let coord : Nat → Except String Int := fun i =>
    match centerCoordinates with
    | .arr cs =>
      match cs.get? i with
      | some (.num n) => Except.ok n
      | some _ => Except.error "TypeError: coordinate is not a number"
      | none => Except.error "IndexError: list index out of range"
    | _ => Except.error "TypeError: not subscriptable"
  let x ← coord 0
  let y ← coord 1
  let z ← coord 2
  pure (getGridCellHash (x : ℚ) (y : ℚ) (z : ℚ) grid_size)

/-- Model of `process_place_token` from the point where the manifest is available. -/
def process_place_token (grid_size : ℚ) (metadata : List (String × Json))
    (txn : TxnOutcome) (status₀ : MetadataStatus) : MetadataStatus × Bool :=
  match placeRequiredFields grid_size metadata with
  | .error _ => (MetadataStatus.Invalid, false)
  | .ok _ =>
    match txn with
    | .committed => (MetadataStatus.Valid, false)
    | .txnError => (status₀, true)
    | .otherError => (MetadataStatus.Failed, false)

/-- The required-field phase of `process_contract` (`name`, `description`). -/
def contractRequiredFields (metadata : List (String × Json)) :
    Except String (Json × Json) := do
  let name ← getOrRaise metadata "name"
  let description ← getOrRaise metadata "description"
  pure (name, description)

/-- The optional-tags phase of `process_contract`: `metadata.get('tags')`,
`None` meaning no tags; this code runs *outside* the required-fields `try`,
so a raise here is an unexpected failure (entity `Failed`), not `Invalid`. -/
def contractTags (metadata : List (String × Json)) : Except String (List String) :=
  match pyGet metadata "tags" with
  | none => Except.ok []
  | some v => do
    let tagStrings ← readTagStrings v
    pure (normalizeTags tagStrings)

/-- Model of `process_contract` from the point where the manifest is available, for an
entity whose stored status is `status₀` and with no pre-existing metadata. -/
def process_contract (metadata : List (String × Json)) (txn : TxnOutcome)
    (status₀ : MetadataStatus) : MetadataStatus × Bool :=
  match contractRequiredFields metadata with
  | .error _ => (MetadataStatus.Invalid, false)
  | .ok _ =>
    match contractTags metadata with
    | .error _ => (MetadataStatus.Failed, false)
    | .ok _ =>
      match txn with
      | .committed => (MetadataStatus.Valid, false)
      | .txnError => (status₀, true)
      | .otherError => (MetadataStatus.Failed, false)

/-! ## `cursor.py`: watermark cursor

The entity store of one kind is a list of entities carrying the configured
key field and a `metadata_status`; the ORM query
`filter(key > watermark, metadata_status = New).order_by(key).first()` is the
minimal-key element of the filtered list. -/

/-- An entity as seen by the cursor. -/
structure Entity where
  key : Nat
  status : MetadataStatus
deriving DecidableEq, Repr

/-- Model of `order_by(key).first()`: the element with minimal key (leftmost among
equals). -/
def firstByKey : List Entity → Option Entity
  | [] => none
  | e :: rest =>
    match firstByKey rest with
    | none => some e
    | some m => if m.key < e.key then some m else some e

/-- The filtered ORM query issued by `Cursor.next`: status `New` and key
above the bound (`key >= 0` on the first call, `key > watermark` after). -/
def cursorQuery (store : List Entity) (above : Nat → Bool) : Option Entity :=
  firstByKey (store.filter (fun e =>
    above e.key && decide (e.status = MetadataStatus.New)))

/-- The `Cursor` state: remembers the last entity returned (`self.current`). -/
structure Cursor where
  current : Option Entity
deriving DecidableEq, Repr

/-- Model of `Cursor.next`: query with `key >= 0` on the first call, else with
`key > current.key`; remember a non-`None` result. -/
def Cursor.next (c : Cursor) (store : List Entity) : Option Entity × Cursor :=
  let nxt := match c.current with
    | none => cursorQuery store (fun k => decide (0 ≤ k))
    | some cur => cursorQuery store (fun k => decide (cur.key < k))
  match nxt with
  | some e => (some e, ⟨some e⟩)
  | none => (none, c)

/-- Model of `Cursor.reset`: clear the remembered entity. -/
def Cursor.reset (_c : Cursor) : Cursor := ⟨none⟩

/-- The key of the last entity the cursor returned, if any. -/
def watermark (c : Cursor) : Option Nat :=
  c.current.map Entity.key

/-- An entity lies above the cursor's watermark: strictly greater key than
the last returned entity, or any key when nothing was returned yet. -/
def aboveWatermark (w : Option Nat) (e : Entity) : Prop :=
  match w with
  | none => True
  | some k => k < e.key

/-! ## Concrete inputs used by the theorems -/

/-- A GLTF document with one scene, one root node, one mesh with a single
primitive of the given draw `mode` whose index accessor has `indexCount`
indices. -/
def singlePrimitiveDoc (mode : Option Int) (indexCount : Nat) : GLTF2 :=
  ⟨some 0, [⟨[0]⟩], [⟨some 0, []⟩], [⟨[⟨some 0, mode⟩]⟩], [⟨indexCount⟩]⟩

/-- An item manifest with declared `polygonCount = P`, a single matching
GLTF format of declared `fileSize = 1000`, and an empty tag list. -/
def itemManifest (P : Int) : List (String × Json) :=
  [("polygonCount", Json.num P),
   ("baseScale", Json.num 1),
   ("artifactUri", Json.str "ipfs://art"),
   ("formats", Json.arr [Json.obj
     [("uri", Json.str "ipfs://art"),
      ("mimeType", Json.str "model/gltf-binary"),
      ("fileSize", Json.num 1000)]]),
   ("tags", Json.arr [])]

/-- The same item manifest but with no `tags` field at all. -/
def itemManifestNoTags (P : Int) : List (String × Json) :=
  [("polygonCount", Json.num P),
   ("baseScale", Json.num 1),
   ("artifactUri", Json.str "ipfs://art"),
   ("formats", Json.arr [Json.obj
     [("uri", Json.str "ipfs://art"),
      ("mimeType", Json.str "model/gltf-binary"),
      ("fileSize", Json.num 1000)]])]

/-- The item manifest with a tag list exercising splitting, stripping and
lower-casing. -/
def itemManifestTagged : List (String × Json) :=
  [("polygonCount", Json.num 100),
   ("baseScale", Json.num 1),
   ("artifactUri", Json.str "ipfs://art"),
   ("formats", Json.arr [Json.obj
     [("uri", Json.str "ipfs://art"),
      ("mimeType", Json.str "model/gltf-binary"),
      ("fileSize", Json.num 1000)]]),
   ("tags", Json.arr [Json.str " Foo, BAR ,", Json.str "baz"])]

/-- An item manifest whose matching format carries a well-formed pixel
`dimensions` entry (`unit = "px"`, `value = "32x32"`). -/
def itemManifestWithDimensions : List (String × Json) :=
  [("polygonCount", Json.num 0),
   ("baseScale", Json.num 1),
   ("artifactUri", Json.str "ipfs://img"),
   ("formats", Json.arr [Json.obj
     [("uri", Json.str "ipfs://img"),
      ("mimeType", Json.str "image/png"),
      ("fileSize", Json.num 1000),
      ("dimensions", Json.obj
        [("unit", Json.str "px"), ("value", Json.str "32x32")])]]),
   ("imageFrame", Json.obj []),
   ("tags", Json.arr [])]

/-- A place manifest with center `(150, 0, -150)`. -/
def placeManifest : List (String × Json) :=
  [("placeType", Json.str "exterior"),
   ("borderCoordinates", Json.arr []),
   ("centerCoordinates", Json.arr [Json.num 150, Json.num 0, Json.num (-150)]),
   ("buildHeight", Json.num 10)]

/-- A contract manifest with the two required fields and no tags. -/
def contractManifest : List (String × Json) :=
  [("name", Json.str "n"), ("description", Json.str "d")]

/-! ## C1 — polygon counting by draw mode -/

/-- C1.  The claim says a `TRIANGLE_STRIP` primitive with `indexCount`
indices contributes `indexCount - 2` polygons, a `TRIANGLE_FAN` primitive
`indexCount - 1`, and any mode other than the three triangle modes zero.
The code disagrees: the first `match` case `case int(TRIANGLES)` is a
capture pattern that matches every integer draw mode, so a strip, a fan and
a points primitive with 6 indices each count `6 / 3 = 2` polygons (the claim
expects 4, 5 and 0 respectively); only the `TRIANGLES` row agrees. -/
theorem count_gltf_polygons_capture_bug :
    count_gltf_polygons (singlePrimitiveDoc (some TRIANGLE_STRIP) 6) 1 = some 2
    ∧ count_gltf_polygons (singlePrimitiveDoc (some TRIANGLE_FAN) 6) 1 = some 2
    ∧ count_gltf_polygons (singlePrimitiveDoc (some 0) 6) 1 = some 2
    ∧ count_gltf_polygons (singlePrimitiveDoc (some TRIANGLES) 6) 1 = some 2 := by
  refine ⟨rfl, rfl, rfl, rfl⟩

/-! ## C5 — grid cell hash -/

/-- C5.  `getGridCellHash` is a pure function of `(x, y, z, gridSize)`: it
computes `cell(c) = trunc(c / gridSize) + sign(c)` per axis with
`sign(c) = -1` for `c < 0` and `+1` otherwise, concatenates the three cells
as `"{cx}-{cy}-{cz}"` and returns the SHA-1 hex digest of that string; for
`(150, 0, -150)` with `gridSize = 100` the cell triple is `(2, 1, -2)`. -/
theorem getGridCellHash_spec :
    (∀ x y z g : ℚ, getGridCellHash x y z g =
      sha1Hex (gridCellString (toGrid x g) (toGrid y g) (toGrid z g)))
    ∧ (∀ c g : ℚ, toGrid c g = ratTrunc (c / g) + (if c < 0 then -1 else 1))
    ∧ toGrid 150 100 = 2 ∧ toGrid 0 100 = 1 ∧ toGrid (-150) 100 = -2 := by
  refine ⟨fun x y z g => rfl, fun c g => rfl, ?_, ?_, ?_⟩ <;>
    norm_num [toGrid, ratTrunc] <;> decide

/-! ## C7 — pixel dimensions parsing -/

/-- C7.  The claim says a matching format with `dimensions` of unit `px` and
value `"<w>x<h>"` has width and height parsed and stored.  The code instead
evaluates `dimensions.unit` on the decoded JSON object — a Python `dict`,
which has no attribute `unit` — so every manifest whose matching format
carries a `dimensions` entry raises `AttributeError` in the required-field
phase and is marked `Invalid`, even for `unit = "px"` and a well-formed
value: the parse the claim describes is unreachable. -/
theorem item_dimensions_attribute_error :
    itemRequiredFields itemManifestWithDimensions =
      Except.error "AttributeError: dict has no attribute unit"
    ∧ ∀ (E : ℚ) (a : Int) (c : Nat) (txn : TxnOutcome) (s₀ : MetadataStatus),
        process_item_token E itemManifestWithDimensions a c txn s₀ =
          (MetadataStatus.Invalid, false) := by
  exact ⟨rfl, fun E a c txn s₀ => rfl⟩

/-! ## C10 — null-valued fields are treated as absent -/

/-- C10.  `dict.get` returns `None` both for an absent key and for a key
bound to JSON `null`, so `getOrRaise` raises the same `KeyError`-style
exception in both cases, and the pipeline marks the entity `Invalid`
identically; shown on `getOrRaise` for every manifest and key, and on the
contract pipeline for its required `name` field. -/
theorem getOrRaise_null_is_missing :
    (∀ (m : List (String × Json)) (k : String), m.lookup k = some Json.null →
      getOrRaise m k = Except.error ("Key " ++ k ++ " not in metadata"))
    ∧ (∀ (m : List (String × Json)) (k : String), m.lookup k = none →
      getOrRaise m k = Except.error ("Key " ++ k ++ " not in metadata"))
    ∧ (∀ (rest : List (String × Json)) (txn : TxnOutcome) (s₀ : MetadataStatus),
        process_contract (("name", Json.null) :: rest) txn s₀ =
          (MetadataStatus.Invalid, false)
        ∧ process_contract [] txn s₀ = (MetadataStatus.Invalid, false)) := by
  refine ⟨?_, ?_, ?_⟩
  · intro m k h
    simp [getOrRaise, pyGet, h]
  · intro m k h
    simp [getOrRaise, pyGet, h]
  · intro rest txn s₀
    exact ⟨rfl, rfl⟩

/-- Witness for C10 at a concrete manifest: the key `"a"` bound to `null`
raises the missing-key error. -/
theorem getOrRaise_null_is_missing_witness :
    getOrRaise [("a", Json.null)] "a" =
      Except.error ("Key " ++ "a" ++ " not in metadata") :=
  getOrRaise_null_is_missing.1 [("a", Json.null)] "a" rfl

/-! ## C6 — tags in the item pipeline -/

/-- C6 counterexample.  The claim says an otherwise valid item manifest with
no `tags` field is not marked `Invalid`; but the item pipeline reads tags
with `getOrRaise(metadata, 'tags')`, so this manifest — valid in every other
respect (its artifact matches the declared size and polygon count exactly) —
is marked `Invalid`. -/
theorem item_missing_tags_invalid :
    process_item_token 500 (itemManifestNoTags 100) 1000 0 TxnOutcome.committed
      MetadataStatus.New = (MetadataStatus.Invalid, false) := rfl

/-- A `filterMap` of a guarded map is a `filter` followed by a `map`. -/
theorem filterMap_guard {α β : Type} (pred : α → Prop) [DecidablePred pred]
    (g : α → β) (l : List α) :
    l.filterMap (fun a => if pred a then some (g a) else none) =
      (l.filter (fun a => decide (pred a))).map g := by
  induction l with
  | nil => rfl
  | cons a t ih =>
    by_cases h : pred a <;> simp [List.filterMap_cons, List.filter_cons, h, ih]

/-- C6 amended.  In the *item* pipeline the `tags` field is required — an
otherwise valid manifest without it is marked `Invalid` — while in the
*contract* pipeline it is optional; when tags are present, each entry is
split on commas, each piece trimmed, empty pieces dropped and the rest
lower-cased. -/
theorem item_tags_required_contract_optional :
    process_item_token 500 (itemManifestNoTags 100) 1000 0 TxnOutcome.committed
      MetadataStatus.New = (MetadataStatus.Invalid, false)
    ∧ (∀ (txn : TxnOutcome) (s₀ : MetadataStatus),
        process_contract [("name", Json.str "n"), ("description", Json.str "d")] txn s₀ =
          match txn with
          | .committed => (MetadataStatus.Valid, false)
          | .txnError => (s₀, true)
          | .otherError => (MetadataStatus.Failed, false))
    ∧ (∀ tags : List String, normalizeTags tags =
        (tags.map (fun t =>
          (((splitOnComma t.data).map pyStrip).filter (fun p => 0 < p.length)).map
            (fun p => String.mk (pyLower p)))).flatten)
    ∧ (itemRequiredFields itemManifestTagged).map ItemFields.tags =
        Except.ok ["foo", "bar", "baz"] := by
  refine ⟨rfl, fun txn s₀ => rfl, ?_, by rfl⟩
  intro tags
  unfold normalizeTags
  congr 1
  refine List.map_congr_left (fun t _ => ?_)
  have h := filterMap_guard (fun p : List Char => 0 < (pyStrip p).length)
    (fun p : List Char => String.mk (pyLower (pyStrip p))) (splitOnComma t.data)
  rw [h, List.filter_map, List.map_map]
  rfl

/-! ## C2 — polygon-count tolerance -/

/-- C2.  For declared `polygonCount = P ≥ 0`, tolerance `E` basis points and
counted polygons `C`, the item pipeline accepts the artifact (the entity is
not marked `Invalid`) iff `max(0, C - P) ≤ P * E / 10000`; a strict excess
above the bound is `Invalid`, a non-zero excess within it is accepted. -/
theorem item_polygon_tolerance (P : Int) (_hP : 0 ≤ P) (E : ℚ) (C : Nat) :
    (process_item_token E (itemManifest P) 1000 C TxnOutcome.committed
        MetadataStatus.New).1 ≠ MetadataStatus.Invalid
      ↔ ((max 0 ((C : Int) - P) : Int) : ℚ) ≤ (P : ℚ) * E / 10000 := by
  have harts : artifactChecks E (Json.num P) (Json.num 1000)
      (Json.str "model/gltf-binary") 1000 C =
      if ((max 0 ((C : Int) - P) : Int) : ℚ) > (P : ℚ) * E / 10000
        then Except.error "polycount > max diff" else Except.ok () := rfl
  have hpi : process_item_token E (itemManifest P) 1000 C TxnOutcome.committed
      MetadataStatus.New =
      match artifactChecks E (Json.num P) (Json.num 1000)
          (Json.str "model/gltf-binary") 1000 C with
      | .error _ => (MetadataStatus.Invalid, false)
      | .ok _ => (MetadataStatus.Valid, false) := rfl
  rw [hpi, harts]
  by_cases h : ((max 0 ((C : Int) - P) : Int) : ℚ) > (P : ℚ) * E / 10000
  · rw [if_pos h]
    exact iff_of_false (by decide) (not_le.mpr h)
  · rw [if_neg h]
    exact iff_of_true (by decide) (not_lt.mp h)

/-- Witness for C2: `P = 100`, `E = 500` basis points, `C = 105` — the
boundary case `diff = 5 = maxDiff`. -/
theorem item_polygon_tolerance_witness :
    0 ≤ (100 : Int) ∧
    ((process_item_token 500 (itemManifest 100) 1000 105 TxnOutcome.committed
        MetadataStatus.New).1 ≠ MetadataStatus.Invalid
      ↔ ((max 0 ((105 : Int) - 100) : Int) : ℚ) ≤ (100 : ℚ) * 500 / 10000) :=
  ⟨by decide, item_polygon_tolerance 100 (by decide) 500 105⟩

/-! ## C4 — transaction-management failures leave the status untouched -/

/-- C4.  For each pipeline (item, place, contract) that reaches the final
persistence step, a `TransactionManagementError` from the store leaves the
persisted `metadata_status` unchanged at `New` (the transaction rolled back
and the handler re-raises without saving), while any other unexpected error
sets it to `Failed`. -/
theorem txn_failure_leaves_status (E : ℚ) (m : List (String × Json))
    (a : Int) (c : Nat) (f : ItemFields)
    (hreq : itemRequiredFields m = Except.ok f)
    (hchk : artifactChecks E f.polygonCount f.fileSize f.mimeType a c =
      Except.ok ())
    (g : ℚ) (mp : List (String × Json)) (hash : String)
    (hplace : placeRequiredFields g mp = Except.ok hash)
    (mc : List (String × Json)) (nd : Json × Json)
    (hcon : contractRequiredFields mc = Except.ok nd)
    (tl : List String) (htags : contractTags mc = Except.ok tl) :
    (process_item_token E m a c TxnOutcome.txnError MetadataStatus.New =
        (MetadataStatus.New, true)
      ∧ process_item_token E m a c TxnOutcome.otherError MetadataStatus.New =
        (MetadataStatus.Failed, false))
    ∧ (process_place_token g mp TxnOutcome.txnError MetadataStatus.New =
        (MetadataStatus.New, true)
      ∧ process_place_token g mp TxnOutcome.otherError MetadataStatus.New =
        (MetadataStatus.Failed, false))
    ∧ (process_contract mc TxnOutcome.txnError MetadataStatus.New =
        (MetadataStatus.New, true)
      ∧ process_contract mc TxnOutcome.otherError MetadataStatus.New =
        (MetadataStatus.Failed, false)) := by
  refine ⟨⟨?_, ?_⟩, ⟨?_, ?_⟩, ⟨?_, ?_⟩⟩ <;>
    simp [process_item_token, process_place_token, process_contract,
      hreq, hchk, hplace, hcon, htags]

/-- The artifact checks pass on the concrete witness inputs
(`P = 100 = C`, `E = 500`). -/
theorem artifactChecks_witness_eval :
    artifactChecks 500 (Json.num 100) (Json.num 1000)
      (Json.str "model/gltf-binary") 1000 100 = Except.ok () := by
  have h : ¬ ((max 0 ((100 : Int) - 100) : Int) : ℚ) > (100 : ℚ) * 500 / 10000 := by
    norm_num
  show (if ((max 0 ((100 : Int) - 100) : Int) : ℚ) > (100 : ℚ) * 500 / 10000
    then Except.error "polycount > max diff" else Except.ok ()) = Except.ok ()
  rw [if_neg h]

/-- Witness for C4 at concrete manifests for all three pipelines. -/
theorem txn_failure_leaves_status_witness :
    (process_item_token 500 (itemManifest 100) 1000 100 TxnOutcome.txnError
        MetadataStatus.New = (MetadataStatus.New, true)
      ∧ process_item_token 500 (itemManifest 100) 1000 100 TxnOutcome.otherError
        MetadataStatus.New = (MetadataStatus.Failed, false))
    ∧ (process_place_token 100 placeManifest TxnOutcome.txnError
        MetadataStatus.New = (MetadataStatus.New, true)
      ∧ process_place_token 100 placeManifest TxnOutcome.otherError
        MetadataStatus.New = (MetadataStatus.Failed, false))
    ∧ (process_contract contractManifest TxnOutcome.txnError
        MetadataStatus.New = (MetadataStatus.New, true)
      ∧ process_contract contractManifest TxnOutcome.otherError
        MetadataStatus.New = (MetadataStatus.Failed, false)) :=
  txn_failure_leaves_status 500 (itemManifest 100) 1000 100
    ⟨Json.num 100, Json.num 1, Json.str "ipfs://art",
      Json.str "model/gltf-binary", Json.num 1000, none, none, none, []⟩
    rfl artifactChecks_witness_eval
    100 placeManifest
    (getGridCellHash ((150 : Int) : ℚ) ((0 : Int) : ℚ) (((-150) : Int) : ℚ) 100) rfl
    contractManifest (Json.str "n", Json.str "d") rfl [] rfl

/-! ## C3 — download retry with exponential backoff -/

/-- Peeling one step off the geometric backoff sequence. -/
theorem backoff_cons (s : ℚ) (n : Nat) :
    (List.range (n + 1)).map (fun i => s * (3 / 2) ^ i) =
      s :: (List.range n).map (fun i => (s * (3 / 2)) * (3 / 2) ^ i) := by
  rw [List.range_succ_eq_map]
  simp only [List.map_cons, List.map_map]
  congr 1
  · simp
  · refine List.map_congr_left (fun i _ => ?_)
    simp [Function.comp, pow_succ]
    ring

/-- If every attempt group fails, the retry loop performs all its remaining
attempts, sleeps the geometric backoff sequence, and raises naming the last
attempt number. -/
theorem retryLoop_allFail {α : Type} (groups : Nat → Option α)
    (h : ∀ k, groups k = none) :
    ∀ (rem attempt : Nat) (s : ℚ), retryLoop groups rem attempt s =
      ⟨Except.error (downloadFailedMsg (attempt + rem)), attempt + rem,
        (List.range rem).map (fun i => s * (3 / 2) ^ i)⟩ := by
  intro rem
  induction rem with
  | zero =>
    intro attempt s
    simp [retryLoop, h attempt]
  | succ rem ih =>
    intro attempt s
    simp only [retryLoop, h attempt]
    rw [ih (attempt + 1) (s * (3 / 2))]
    rw [backoff_cons]
    have harith : attempt + 1 + rem = attempt + (rem + 1) := by omega
    simp [harith]

/-- If the first `j - 1` attempt groups fail and group `j` succeeds within
the remaining budget, the retry loop returns its value after `j` attempts
and `j - attempt` backoff sleeps. -/
theorem retryLoop_success {α : Type} (groups : Nat → Option α) :
    ∀ (rem attempt : Nat) (s : ℚ) (j : Nat) (v : α),
      attempt ≤ j → j ≤ attempt + rem →
      (∀ k, attempt ≤ k → k < j → groups k = none) →
      groups j = some v →
      retryLoop groups rem attempt s =
        ⟨Except.ok v, j, (List.range (j - attempt)).map (fun i => s * (3 / 2) ^ i)⟩ := by
  intro rem
  induction rem with
  | zero =>
    intro attempt s j v h1 h2 h3 h4
    have hj : j = attempt := by omega
    subst hj
    simp [retryLoop, h4]
  | succ rem ih =>
    intro attempt s j v h1 h2 h3 h4
    by_cases hj : j = attempt
    · subst hj
      simp [retryLoop, h4]
    · have hlt : attempt < j := lt_of_le_of_ne h1 (Ne.symm hj)
      have hg : groups attempt = none := h3 attempt le_rfl hlt
      simp only [retryLoop, hg]
      rw [ih (attempt + 1) (s * (3 / 2)) j v hlt (by omega)
        (fun k hk1 hk2 => h3 k (by omega) hk2) h4]
      have harith : j - attempt = (j - (attempt + 1)) + 1 := by omega
      rw [harith, backoff_cons]

/-- C3.  With `download_retries = R ≥ 1`: if every attempt group (random
primary gateway then fixed fallback gateway) fails, `ipfs_download_retry`
performs exactly `R` attempt groups, sleeps the uncapped delays
`10, 15, 22.5, …` (each `1.5×` the previous) between consecutive groups, and
raises the exhaustion error naming the attempt count `R`; if the first
succeeding group is `j ≤ R`, its value is returned after exactly `j` groups
and `j - 1` sleeps; and one attempt group fails iff both of its gateway
calls fail. -/
theorem ipfs_download_retry_spec {α : Type} (R : Nat) (hR : 1 ≤ R)
    (prim fb : Nat → Option α) :
    ((∀ k, prim k = none) → (∀ k, fb k = none) →
      ipfs_download_retry (fun k => ipfs_download_fallback (prim k) (fb k)) R =
        ⟨Except.error (downloadFailedMsg R), R, backoffSeq (R - 1)⟩)
    ∧ (∀ j v, 1 ≤ j → j ≤ R →
        (∀ k, 1 ≤ k → k < j → ipfs_download_fallback (prim k) (fb k) = none) →
        ipfs_download_fallback (prim j) (fb j) = some v →
        ipfs_download_retry (fun k => ipfs_download_fallback (prim k) (fb k)) R =
          ⟨Except.ok v, j, backoffSeq (j - 1)⟩)
    ∧ (∀ p f : Option α, ipfs_download_fallback p f = none ↔ p = none ∧ f = none) := by
  refine ⟨?_, ?_, ?_⟩
  · intro hp hf
    have hall : ∀ k, ipfs_download_fallback (prim k) (fb k) = none := fun k => by
      simp [ipfs_download_fallback, hp k, hf k]
    unfold ipfs_download_retry
    rw [retryLoop_allFail _ hall (R - 1) 1 10]
    have harith : 1 + (R - 1) = R := by omega
    rw [harith]
    rfl
  · intro j v hj1 hjR hfail hsucc
    unfold ipfs_download_retry
    rw [retryLoop_success _ (R - 1) 1 10 j v hj1 (by omega)
      (fun k hk1 hk2 => hfail k hk1 hk2) hsucc]
    rfl
  · intro p f
    cases p <;> simp [ipfs_download_fallback]

/-- Witness for C3: `R = 2` and both gateways failing on every attempt gives
the exhaustion error after 2 attempt groups with one 10-second sleep. -/
theorem ipfs_download_retry_spec_witness :
    ipfs_download_retry
      (fun k => ipfs_download_fallback ((fun _ => none : Nat → Option Unit) k)
        ((fun _ => none : Nat → Option Unit) k)) 2 =
      ⟨Except.error (downloadFailedMsg 2), 2, backoffSeq 1⟩ :=
  (ipfs_download_retry_spec 2 (by decide) (fun _ => none) (fun _ => none)).1
    (fun _ => rfl) (fun _ => rfl)

/-! ## C8 — watermark cursor -/

/-- The function `firstByKey` returns nothing only on the empty list. -/
theorem firstByKey_eq_none {l : List Entity} : firstByKey l = none ↔ l = [] := by
  cases l with
  | nil => simp [firstByKey]
  | cons e rest =>
    cases h : firstByKey rest with
    | none => simp [firstByKey, h]
    | some m =>
      simp only [firstByKey, h]
      constructor
      · intro hc
        split at hc <;> simp at hc
      · intro hc
        simp at hc

/-- The function `firstByKey` returns an element of the list. -/
theorem firstByKey_mem {l : List Entity} {e : Entity}
    (h : firstByKey l = some e) : e ∈ l := by
  induction l generalizing e with
  | nil => simp [firstByKey] at h
  | cons a rest ih =>
    cases hr : firstByKey rest with
    | none =>
      simp only [firstByKey, hr] at h
      cases h
      exact List.mem_cons_self a rest
    | some m =>
      simp only [firstByKey, hr] at h
      by_cases hk : m.key < a.key
      · rw [if_pos hk] at h
        cases h
        exact List.mem_cons_of_mem a (ih hr)
      · rw [if_neg hk] at h
        cases h
        exact List.mem_cons_self a rest

/-- The function `firstByKey` returns an element with minimal key. -/
theorem firstByKey_min {l : List Entity} {e : Entity}
    (h : firstByKey l = some e) : ∀ x ∈ l, e.key ≤ x.key := by
  induction l generalizing e with
  | nil => simp [firstByKey] at h
  | cons a rest ih =>
    intro x hx
    cases hr : firstByKey rest with
    | none =>
      have hrest : rest = [] := firstByKey_eq_none.mp hr
      subst hrest
      simp only [firstByKey] at h
      cases h
      rcases List.mem_cons.mp hx with rfl | hx'
      · exact le_rfl
      · simp at hx'
    | some m =>
      simp only [firstByKey, hr] at h
      rcases List.mem_cons.mp hx with rfl | hx'
      · by_cases hk : m.key < x.key
        · rw [if_pos hk] at h
          cases h
          exact le_of_lt hk
        · rw [if_neg hk] at h
          cases h
          exact le_rfl
      · by_cases hk : m.key < a.key
        · rw [if_pos hk] at h
          cases h
          exact ih hr x hx'
        · rw [if_neg hk] at h
          cases h
          exact le_trans (not_lt.mp hk) (ih hr x hx')

/-- A successful cursor query returns a `New` entity of the store satisfying
the key bound, minimal among all such entities. -/
theorem cursorQuery_some {store : List Entity} {above : Nat → Bool} {e : Entity}
    (h : cursorQuery store above = some e) :
    e ∈ store ∧ above e.key = true ∧ e.status = MetadataStatus.New
    ∧ ∀ x ∈ store, above x.key = true → x.status = MetadataStatus.New →
        e.key ≤ x.key := by
  unfold cursorQuery at h
  have hm := List.mem_filter.mp (firstByKey_mem h)
  have hmin := firstByKey_min h
  have hcond := hm.2
  simp only [Bool.and_eq_true, decide_eq_true_eq] at hcond
  refine ⟨hm.1, hcond.1, hcond.2, fun x hx ha hs => ?_⟩
  exact hmin x (List.mem_filter.mpr ⟨hx, by simp [ha, hs]⟩)

/-- An empty cursor query means no `New` entity of the store satisfies the
key bound. -/
theorem cursorQuery_none {store : List Entity} {above : Nat → Bool}
    (h : cursorQuery store above = none) :
    ∀ x ∈ store, above x.key = true → x.status ≠ MetadataStatus.New := by
  unfold cursorQuery at h
  rw [firstByKey_eq_none] at h
  intro x hx ha hs
  have hmem : x ∈ store.filter (fun e =>
      above e.key && decide (e.status = MetadataStatus.New)) :=
    List.mem_filter.mpr ⟨hx, by simp [ha, hs]⟩
  rw [h] at hmem
  simp at hmem

/-- A non-`none` `Cursor.next` result is the least-keyed `New` entity above
the watermark, and becomes the new watermark. -/
theorem cursor_next_some {store : List Entity} {c : Cursor} {e : Entity}
    (h : (Cursor.next c store).1 = some e) :
    e ∈ store ∧ e.status = MetadataStatus.New ∧ aboveWatermark (watermark c) e
    ∧ (∀ x ∈ store, x.status = MetadataStatus.New →
        aboveWatermark (watermark c) x → e.key ≤ x.key)
    ∧ (Cursor.next c store).2 = ⟨some e⟩ := by
  cases hcur : c.current with
  | none =>
    cases hq : cursorQuery store (fun k => decide (0 ≤ k)) with
    | none =>
      simp only [Cursor.next, hcur, hq] at h
      exact Option.noConfusion h
    | some f =>
      simp only [Cursor.next, hcur, hq] at h
      cases h
      obtain ⟨hmem, _, hnew, hmin⟩ := cursorQuery_some hq
      refine ⟨hmem, hnew, by simp [watermark, hcur, aboveWatermark],
        fun x hx hs _ => hmin x hx (by simp) hs, ?_⟩
      simp only [Cursor.next, hcur, hq]
  | some cur =>
    cases hq : cursorQuery store (fun k => decide (cur.key < k)) with
    | none =>
      simp only [Cursor.next, hcur, hq] at h
      exact Option.noConfusion h
    | some f =>
      simp only [Cursor.next, hcur, hq] at h
      cases h
      obtain ⟨hmem, habove, hnew, hmin⟩ := cursorQuery_some hq
      simp only [decide_eq_true_eq] at habove
      refine ⟨hmem, hnew, by simpa [watermark, hcur, aboveWatermark] using habove,
        fun x hx hs hab => hmin x hx ?_ hs, ?_⟩
      · have hlt : cur.key < x.key := by
          simpa [watermark, hcur, aboveWatermark] using hab
        simp [hlt]
      · simp only [Cursor.next, hcur, hq]

/-- A `none` `Cursor.next` result means no `New` entity lies above the
watermark, and the cursor is unchanged. -/
theorem cursor_next_none {store : List Entity} {c : Cursor}
    (h : (Cursor.next c store).1 = none) :
    (∀ x ∈ store, x.status = MetadataStatus.New →
      ¬ aboveWatermark (watermark c) x)
    ∧ (Cursor.next c store).2 = c := by
  cases hcur : c.current with
  | none =>
    cases hq : cursorQuery store (fun k => decide (0 ≤ k)) with
    | some f =>
      simp only [Cursor.next, hcur, hq] at h
      exact Option.noConfusion h
    | none =>
      refine ⟨fun x hx hs _ => cursorQuery_none hq x hx (by simp) hs, ?_⟩
      simp only [Cursor.next, hcur, hq]
  | some cur =>
    cases hq : cursorQuery store (fun k => decide (cur.key < k)) with
    | some f =>
      simp only [Cursor.next, hcur, hq] at h
      exact Option.noConfusion h
    | none =>
      refine ⟨fun x hx hs hab => ?_, ?_⟩
      · have hlt : cur.key < x.key := by
          simpa [watermark, hcur, aboveWatermark] using hab
        exact cursorQuery_none hq x hx (by simp [hlt]) hs
      · simp only [Cursor.next, hcur, hq]

/-- C8.  `Cursor.next` returns the lowest-keyed `New` entity strictly above
the last returned key (any key on the first call, since keys are
non-negative), or `none` when no such entity exists leaving the cursor
unchanged; successive non-`none` results have strictly increasing keys; and
`reset` clears the watermark so the next call restarts from the minimum. -/
theorem cursor_spec (store : List Entity) (c : Cursor) :
    (∀ e, (Cursor.next c store).1 = some e →
      e ∈ store ∧ e.status = MetadataStatus.New ∧ aboveWatermark (watermark c) e
      ∧ (∀ x ∈ store, x.status = MetadataStatus.New →
          aboveWatermark (watermark c) x → e.key ≤ x.key)
      ∧ (Cursor.next c store).2 = ⟨some e⟩)
    ∧ ((Cursor.next c store).1 = none →
      (∀ x ∈ store, x.status = MetadataStatus.New →
        ¬ aboveWatermark (watermark c) x)
      ∧ (Cursor.next c store).2 = c)
    ∧ (∀ (store' : List Entity) (e e' : Entity),
        (Cursor.next c store).1 = some e →
        (Cursor.next (Cursor.next c store).2 store').1 = some e' →
        e.key < e'.key)
    ∧ (Cursor.reset c).current = none := by
  refine ⟨fun e h => cursor_next_some h, fun h => cursor_next_none h,
    fun store' e e' h1 h2 => ?_, rfl⟩
  have hc' := (cursor_next_some h1).2.2.2.2
  rw [hc'] at h2
  have := (cursor_next_some h2).2.2.1
  simpa [watermark, aboveWatermark] using this

/-- Witness for C8 on a two-entity store: the first call returns the
lowest-keyed `New` entity. -/
theorem cursor_spec_witness :
    (⟨5, MetadataStatus.New⟩ : Entity) ∈
        [⟨7, MetadataStatus.New⟩, (⟨5, MetadataStatus.New⟩ : Entity)]
      ∧ Entity.status ⟨5, MetadataStatus.New⟩ = MetadataStatus.New
      ∧ aboveWatermark (watermark ⟨none⟩) ⟨5, MetadataStatus.New⟩
      ∧ (∀ x ∈ [⟨7, MetadataStatus.New⟩, (⟨5, MetadataStatus.New⟩ : Entity)],
          x.status = MetadataStatus.New →
          aboveWatermark (watermark ⟨none⟩) x →
          Entity.key ⟨5, MetadataStatus.New⟩ ≤ x.key)
      ∧ (Cursor.next ⟨none⟩
          [⟨7, MetadataStatus.New⟩, ⟨5, MetadataStatus.New⟩]).2 =
        ⟨some ⟨5, MetadataStatus.New⟩⟩ :=
  (cursor_spec [⟨7, MetadataStatus.New⟩, ⟨5, MetadataStatus.New⟩] ⟨none⟩).1
    ⟨5, MetadataStatus.New⟩ rfl
